import Mathlib

/-!
Shallow embedding of the Builder orchestrator (`src/main.c`) and the parts of
its helper library `b.h` that the orchestrator calls.  External effects
(filesystem queries, subprocess execution) are modelled by an oracle
environment `Env`; every stage additionally produces a trace of `Event`s so
that properties such as "fails without spawning any subprocess" and "reports
the failure" are statable.
-/

/-- Observable effects of one run: subprocess spawns (capture mode and
`system` mode), log lines at each level, directory-creation attempts and
permission changes.  Log messages carry the format string with its arguments
substituted, as the C `printf`-style macros produce them. -/
inductive Event where
  | spawnCapture (prog : String) (args : List String)
  | spawnSystem (cmd : String)
  | infoLog (msg : String)
  | errorLog (msg : String)
  | verboseLog (msg : String)
  | mkdirAttempt (d : String)
  | chmod (path : String) (mode : Nat)
deriving DecidableEq

/-- `true` exactly on the two subprocess-spawning events. -/
def isSpawn : Event → Bool
  | Event.spawnCapture _ _ => true
  | Event.spawnSystem _ => true
  | _ => false

/-- A trace contains no subprocess spawn at all. -/
def noSpawn (t : List Event) : Bool := t.all (fun e => !isSpawn e)

/-- The C `Array` struct from `b.h`: `char **items; int count; int capacity;`. -/
structure ArrayC where
  items : List String
  count : Nat
  capacity : Nat
deriving DecidableEq

/-- Modelled from the spec: `array_new(initial_capacity)` from `b.h` (not in
src/) — allocates a container with the requested capacity and count zero
(§4.1). -/
def array_new (initial_capacity : Nat) : ArrayC :=
  { items := [], count := 0, capacity := initial_capacity }

/-- Modelled from the spec: `array_add(arr, item)` from `b.h` (not in src/) —
appends a duplicate of `item`, growing the storage geometrically (capacity at
least doubles) when full, and increments `count` (§4.1). -/
def array_add (a : ArrayC) (item : String) : ArrayC :=
  let a' := if a.count ≥ a.capacity
            then { a with capacity := max (2 * a.capacity) (a.count + 1) }
            else a
  { a' with items := a'.items ++ [item], count := a'.count + 1 }

/-- `matchesAt pat s` : `pat` occurs at the head of `s`. -/
def matchesAt : List Char → List Char → Bool
  | [], _ => true
  | _ :: _, [] => false
  | p :: ps, c :: cs => p == c && matchesAt ps cs

/-- Index of the first occurrence of `pat` in `s`, if any. -/
def findOcc (pat : List Char) : List Char → Option Nat
  | [] => if matchesAt pat [] then some 0 else none
  | c :: cs =>
      if matchesAt pat (c :: cs) then some 0
      else (findOcc pat cs).map (· + 1)

/-- Modelled from the spec: `strreplace(str, old_sub, new_sub)` from `b.h`
(not in src/) — replaces the first occurrence of `old_sub` in `str` (§4.4:
"replacing the first occurrence of the source extension suffix"); returns the
string unchanged when there is no occurrence. -/
def strreplace (s old new : String) : String :=
  match findOcc old.toList s.toList with
  | none => s
  | some i =>
      String.mk (s.toList.take i ++ new.toList ++ s.toList.drop (i + old.toList.length))

/-- Modelled from the spec: `path_basename(path)` from `b.h` (not in src/) —
the file-name component after the last path separator (§4.4 "Compute
`base = basename(s)`"). -/
def path_basename (p : String) : String :=
  String.mk ((p.toList.reverse.takeWhile (fun c => c ≠ '/')).reverse)

/-- Modelled from the spec: `pathjoin(a, b)` from `b.h` (not in src/) — joins
two path components with the separator (§4.4 "joining it under the object
directory"). -/
def pathjoin (a b : String) : String := a ++ "/" ++ b

/-- Oracle environment answering every external query the orchestrator makes.
Each field corresponds to one call site, so a query made after a subprocess
ran (e.g. `file_exists(obj_file)` inside `compile_file`) has its own oracle
and is read at the time the C code reads it. -/
structure Env where
  /-- `dir_exists(path)` in `main`. -/
  dirExists : String → Bool
  /-- whether `make_dir(path, 0755)` in `main` succeeds. -/
  makeDirOk : String → Bool
  /-- result of `find_all_files("src", "c")`; `none` models a NULL return. -/
  findAllFiles : Option ArrayC
  /-- Modelled from the spec: `run_command(prog, args..., NULL)` from `b.h`
  (not in src/) — capture-mode execution; returns the captured standard
  output as an owned string when the process could be created, `none`
  otherwise; the child's exit status is not part of the result (§4.2). -/
  runCommandCapture : String → List String → Option String
  /-- the capture-mode child's actual exit status: present in the world but
  never returned by `run_command` (§4.2). -/
  captureExitStatus : String → List String → Int
  /-- `file_exists(obj_file)` inside `compile_file`, queried after the
  compile command has run. -/
  objExistsAfter : String → Bool
  /-- return value of `system(cmd)`. -/
  systemResult : String → Int
  /-- `file_exists(output)` inside `link_files`, queried after the link
  command has run. -/
  outputExistsAfterLink : String → Bool
  /-- `file_exists(program)` inside `run_program`. -/
  programExists : String → Bool
  /-- `is_exec(program)` inside `run_program`. -/
  programIsExec : String → Bool

/-- The fixed argument list `compile_file` passes to `run_command` after the
program name `"gcc"` (the terminating NULL sentinel is dropped in the
embedding). -/
def compileArgs (src_file obj_file : String) : List String :=
  ["-c", "-o", obj_file, src_file, "-Wall", "-Werror"]

/-- `compile_file` from `src/main.c`: logs, runs the capture-mode compile
command, and on a non-null result returns whether the object file now
exists; a null result is failure. -/
def compile_file (env : Env) (src_file obj_file : String) : Bool × List Event :=
  let e0 := [Event.infoLog ("Compiling " ++ src_file ++ " to " ++ obj_file),
             Event.spawnCapture "gcc" (compileArgs src_file obj_file)]
  match env.runCommandCapture "gcc" (compileArgs src_file obj_file) with
  | some _ => (env.objExistsAfter obj_file, e0)
  | none => (false, e0)

/-- The object paths `link_files` iterates over: `items[i]` for
`0 <= i < count`. -/
def linkObjList (a : ArrayC) : List String := a.items.take a.count

/-- The single link command string built by `link_files`:
`"gcc -o " ++ output` followed by `" " ++ obj` for each object path. -/
def linkCmd (output : String) (objs : List String) : String :=
  objs.foldl (fun cmd o => cmd ++ " " ++ o) ("gcc -o " ++ output)

/-- `link_files` from `src/main.c`: fails at once on a NULL or empty array;
otherwise builds the link command, runs it through `system`, and succeeds
iff the result is zero and the output file exists afterwards. -/
def link_files (env : Env) (output : String) (obj_files : Option ArrayC) :
    Bool × List Event :=
  match obj_files with
  | none => (false, [Event.errorLog "No object files for linking"])
  | some a =>
      if a.count = 0 then
        (false, [Event.errorLog "No object files for linking"])
      else
        let cmd := linkCmd output (linkObjList a)
        (decide (env.systemResult cmd = 0) && env.outputExistsAfterLink output,
         [Event.infoLog ("Linking files into " ++ output),
          Event.verboseLog ("Executing command: " ++ cmd),
          Event.spawnSystem cmd])

/-- `run_program` from `src/main.c`: fails (with an error report) when the
target does not exist, then when it is not executable; only then spawns
`"./" ++ program` through `system` and succeeds iff the result is zero. -/
def run_program (env : Env) (program : String) : Bool × List Event :=
  let e0 := [Event.infoLog ("Running program " ++ program)]
  if env.programExists program = false then
    (false, e0 ++ [Event.errorLog ("Program " ++ program ++ " does not exist")])
  else if env.programIsExec program = false then
    (false, e0 ++ [Event.errorLog ("File " ++ program ++ " is not executable")])
  else
    (decide (env.systemResult ("./" ++ program) = 0),
     e0 ++ [Event.spawnSystem ("./" ++ program)])

/-- The argument-parsing loop of `main` (lines 71–77), over `argv[1..]`:
`--run`/`run` set the run flag; `--out` with a following argument consumes it
as the output name; everything else — including a trailing `--out` with no
value — is ignored. -/
def parseArgs : List String → String → Bool → String × Bool
  | [], out, run => (out, run)
  | a :: rest, out, run =>
      if a = "--run" || a = "run" then
        parseArgs rest out true
      else if a = "--out" then
        match rest with
        | [] => (out, run)
        | v :: rest2 => parseArgs rest2 v run
      else
        parseArgs rest out run

/-- One `if (!dir_exists(d)) { INFO(msg); if (!make_dir(d, 0755)) FAIL; }`
block of `main`: returns whether the directory is present afterwards, and
the events produced. -/
def ensureDir (env : Env) (d msg : String) : Bool × List Event :=
  if env.dirExists d then (true, [])
  else (env.makeDirOk d, [Event.infoLog msg, Event.mkdirAttempt d])

/-- Whether the `ensureDir` block leaves the directory in place. -/
def ensureOk (env : Env) (d : String) : Bool :=
  env.dirExists d || env.makeDirOk d

/-- The object path `main` derives for a source path (lines 114–119):
base name, first `".c"` occurrence replaced by `".o"`, joined under
`"obj"`. -/
def objPathFor (src_file : String) : String :=
  pathjoin "obj" (strreplace (path_basename src_file) ".c" ".o")

/-- The spec-side formula of §8: `join(object_dir,
replace_first(basename(p), source_ext, object_ext))` with `object_dir =
"obj"`, `source_ext = ".c"`, `object_ext = ".o"`. -/
def specObjPath (p : String) : String :=
  pathjoin "obj" (strreplace (path_basename p) ".c" ".o")

/-- Whether compiling one source file succeeds, object path derived as in
`main`. -/
def compileOk (env : Env) (s : String) : Bool :=
  (compile_file env s (objPathFor s)).1

/-- The compile loop of `main` (lines 113–130): per source file derive the
object path, compile, on success `array_add` the object path, on failure
log the error and continue. -/
def compileLoop (env : Env) : List String → ArrayC → ArrayC × List Event
  | [], acc => (acc, [])
  | s :: rest, acc =>
      let obj_file := objPathFor s
      let r := compile_file env s obj_file
      if r.1 then
        let t := compileLoop env rest (array_add acc obj_file)
        (t.1, r.2 ++ t.2)
      else
        let t := compileLoop env rest acc
        (t.1, r.2 ++ [Event.errorLog ("Error compiling " ++ s)] ++ t.2)

/-- The source list the compile loop reads: `items[i]` for
`0 <= i < count`. -/
def srcList (a : ArrayC) : List String := a.items.take a.count

/-- The object array `main` has built once the compile loop is done. -/
def builtObjs (env : Env) (srcs : ArrayC) : ArrayC :=
  (compileLoop env (srcList srcs) (array_new srcs.count)).1

/-- Final outcome of a run of `main`: either a `FAIL` (log-and-exit) with
its message, or a normal return with the process exit code. -/
inductive Outcome where
  | fatal (msg : String)
  | exit (code : Int)
deriving DecidableEq

/-- `main` from `src/main.c`: parse arguments, check `src/` exists, ensure
`obj/` and `bin/`, discover sources (fatal when NULL or empty), compile each
file, report a partial summary when some failed, link, and on link success
chmod the output and optionally run it; always returns 0 when no `FAIL`
fired. -/
def mainRun (env : Env) (args : List String) : Outcome × List Event :=
  let pr := parseArgs args "program" false
  if env.dirExists "src" = false then
    (Outcome.fatal "Source code directory src does not exist", [])
  else
    let r1 := ensureDir env "obj" "Creating directory for object files obj"
    if r1.1 = false then
      (Outcome.fatal "Failed to create directory obj", r1.2)
    else
      let r2 := ensureDir env "bin" "Creating directory for executable files bin"
      if r2.1 = false then
        (Outcome.fatal "Failed to create directory bin", r1.2 ++ r2.2)
      else
        let e0 := r1.2 ++ r2.2 ++ [Event.infoLog "Searching for source files in src"]
        match env.findAllFiles with
        | none => (Outcome.fatal "No source .c files found in directory src", e0)
        | some srcs =>
            if srcs.count = 0 then
              (Outcome.fatal "No source .c files found in directory src", e0)
            else
              let e1 := e0 ++ [Event.infoLog ("Found " ++ toString srcs.count ++ " source files")]
              let rc := compileLoop env (srcList srcs) (array_new srcs.count)
              let obj_files := rc.1
              let e2 := e1 ++ rc.2 ++
                (if obj_files.count ≠ srcs.count then
                   [Event.errorLog ("Only " ++ toString obj_files.count ++ " out of "
                      ++ toString srcs.count ++ " files compiled")]
                 else
                   [Event.infoLog "All files successfully compiled"])
              let output_path := pathjoin "bin" pr.1
              let rl := link_files env output_path (some obj_files)
              let e3 := e2 ++ rl.2
              let e4 := e3 ++
                (if rl.1 then
                   [Event.infoLog ("Program successfully built: " ++ output_path),
                    Event.chmod output_path 493]
                   ++ (if pr.2 then
                         [Event.infoLog "Running program..."] ++ (run_program env output_path).2
                       else [])
                 else
                   [Event.errorLog "Error linking program"])
              (Outcome.exit 0, e4)

/-- The disjunction of the fatal conditions of `main`, in check order:
`src/` missing, `obj/` cannot be ensured, `bin/` cannot be ensured, source
discovery returned NULL or zero files. -/
def fatalCond (env : Env) : Bool :=
  !env.dirExists "src" || !ensureOk env "obj" || !ensureOk env "bin" ||
    (match env.findAllFiles with
     | none => true
     | some a => a.count == 0)

/-- The `FAIL` message of the first fatal condition that fires, in check
order. -/
def fatalMsg (env : Env) : String :=
  if !env.dirExists "src" then "Source code directory src does not exist"
  else if !ensureOk env "obj" then "Failed to create directory obj"
  else if !ensureOk env "bin" then "Failed to create directory bin"
  else "No source .c files found in directory src"

/-- A concrete discovered-source array used by the witnesses. -/
def srcsW : ArrayC := { items := ["src/a.c", "src/b.c"], count := 2, capacity := 2 }

/-- A concrete oracle environment in which every query succeeds. -/
def envAllOk : Env :=
  { dirExists := fun _ => true
    makeDirOk := fun _ => true
    findAllFiles := some srcsW
    runCommandCapture := fun _ _ => some ""
    captureExitStatus := fun _ _ => 0
    objExistsAfter := fun _ => true
    systemResult := fun _ => 0
    outputExistsAfterLink := fun _ => true
    programExists := fun _ => true
    programIsExec := fun _ => true }

/-- Like `envAllOk`, but only `obj/a.o` appears after its compile command,
so the compile of `src/b.c` fails. -/
def envHalfCompile : Env := { envAllOk with objExistsAfter := fun p => p == "obj/a.o" }

/-- Like `envAllOk`, but no directory exists (in particular `src/` is
missing). -/
def envNoSrcDir : Env := { envAllOk with dirExists := fun _ => false }

/-- Like `envAllOk`, but the run target does not exist. -/
def envNoProgram : Env := { envAllOk with programExists := fun _ => false }

/-- Like `envAllOk`, but the run target is not executable. -/
def envNotExec : Env := { envAllOk with programIsExec := fun _ => false }

theorem ensureDir_fst (env : Env) (d m : String) :
    (ensureDir env d m).1 = ensureOk env d := by
  unfold ensureDir ensureOk
  by_cases h : env.dirExists d = true <;> simp [h]

theorem ensureDir_noSpawn (env : Env) (d m : String) :
    noSpawn (ensureDir env d m).2 = true := by
  unfold ensureDir
  by_cases h : env.dirExists d = true <;> simp [h, noSpawn, isSpawn]

theorem array_add_spec (a : ArrayC) (x : String) :
    (array_add a x).items = a.items ++ [x] ∧ (array_add a x).count = a.count + 1 := by
  unfold array_add
  by_cases h : a.count ≥ a.capacity <;> simp [h]

theorem compile_file_trace (env : Env) (s o : String) :
    (compile_file env s o).2
      = [Event.infoLog ("Compiling " ++ s ++ " to " ++ o),
         Event.spawnCapture "gcc" (compileArgs s o)] := by
  unfold compile_file
  cases env.runCommandCapture "gcc" (compileArgs s o) <;> simp

theorem noSpawn_append (a b : List Event) :
    noSpawn (a ++ b) = (noSpawn a && noSpawn b) := by
  simp [noSpawn, List.all_append]

theorem noSpawn_infoLog (m : String) : noSpawn [Event.infoLog m] = true := rfl

theorem mainRun_fst (env : Env) (args : List String) :
    (mainRun env args).1
      = if fatalCond env = true then Outcome.fatal (fatalMsg env) else Outcome.exit 0 := by
  unfold mainRun fatalCond fatalMsg
  by_cases h1 : env.dirExists "src" = true
  · by_cases h2 : ensureOk env "obj" = true
    · by_cases h3 : ensureOk env "bin" = true
      · cases hf : env.findAllFiles with
        | none => simp [h1, h2, h3, hf, ensureDir_fst]
        | some srcs =>
          by_cases h5 : srcs.count = 0 <;>
            simp [h1, h2, h3, hf, h5, ensureDir_fst]
      · simp [h1, h2, h3, ensureDir_fst]
    · simp [h1, h2, ensureDir_fst]
  · simp only [Bool.not_eq_true] at h1
    simp [h1]

theorem mainRun_fatal_noSpawn (env : Env) (args : List String)
    (h : fatalCond env = true) : noSpawn (mainRun env args).2 = true := by
  unfold mainRun
  by_cases h1 : env.dirExists "src" = true
  · by_cases h2 : ensureOk env "obj" = true
    · by_cases h3 : ensureOk env "bin" = true
      · cases hf : env.findAllFiles with
        | none =>
          simp [h1, h2, h3, hf, ensureDir_fst, noSpawn_append, ensureDir_noSpawn,
            noSpawn_infoLog]
        | some srcs =>
          by_cases h5 : srcs.count = 0
          · simp [h1, h2, h3, hf, h5, ensureDir_fst, noSpawn_append, ensureDir_noSpawn,
              noSpawn_infoLog]
          · exfalso
            unfold fatalCond at h
            simp [h1, h2, h3, hf, h5] at h
      · simp [h1, h2, h3, ensureDir_fst, noSpawn_append, ensureDir_noSpawn]
    · simp [h1, h2, ensureDir_fst, noSpawn_append, ensureDir_noSpawn]
  · simp only [Bool.not_eq_true] at h1
    simp [h1, noSpawn]

theorem mainRun_nonfatal_trace (env : Env) (args : List String) (srcs : ArrayC)
    (h1 : env.dirExists "src" = true) (h2 : ensureOk env "obj" = true)
    (h3 : ensureOk env "bin" = true) (h4 : env.findAllFiles = some srcs)
    (h5 : srcs.count ≠ 0) :
    (mainRun env args).2
      = (ensureDir env "obj" "Creating directory for object files obj").2
        ++ (ensureDir env "bin" "Creating directory for executable files bin").2
        ++ [Event.infoLog "Searching for source files in src"]
        ++ [Event.infoLog ("Found " ++ toString srcs.count ++ " source files")]
        ++ (compileLoop env (srcList srcs) (array_new srcs.count)).2
        ++ (if (builtObjs env srcs).count ≠ srcs.count then
              [Event.errorLog ("Only " ++ toString (builtObjs env srcs).count ++ " out of "
                 ++ toString srcs.count ++ " files compiled")]
            else [Event.infoLog "All files successfully compiled"])
        ++ (link_files env (pathjoin "bin" (parseArgs args "program" false).1)
              (some (builtObjs env srcs))).2
        ++ (if (link_files env (pathjoin "bin" (parseArgs args "program" false).1)
                  (some (builtObjs env srcs))).1 then
              [Event.infoLog ("Program successfully built: "
                 ++ pathjoin "bin" (parseArgs args "program" false).1),
               Event.chmod (pathjoin "bin" (parseArgs args "program" false).1) 493]
              ++ (if (parseArgs args "program" false).2 then
                    [Event.infoLog "Running program..."]
                    ++ (run_program env (pathjoin "bin" (parseArgs args "program" false).1)).2
                  else [])
            else [Event.errorLog "Error linking program"]) := by
  unfold mainRun builtObjs
  simp [h1, h2, h3, h4, h5, ensureDir_fst]

theorem compileLoop_acc (env : Env) (srcs : List String) (acc : ArrayC) :
    (compileLoop env srcs acc).1.items
      = acc.items ++ srcs.filterMap
          (fun s => if compileOk env s then some (objPathFor s) else none)
    ∧ (compileLoop env srcs acc).1.count
      = acc.count + (srcs.filterMap
          (fun s => if compileOk env s then some (objPathFor s) else none)).length := by
  induction srcs generalizing acc with
  | nil => simp [compileLoop]
  | cons s rest ih =>
    by_cases h : compileOk env s
    · have hh : (compile_file env s (objPathFor s)).1 = true := h
      simp only [compileLoop, hh, if_true, List.filterMap_cons, h]
      constructor
      · rw [(ih (array_add acc (objPathFor s))).1, (array_add_spec acc (objPathFor s)).1]
        simp
      · rw [(ih (array_add acc (objPathFor s))).2, (array_add_spec acc (objPathFor s)).2]
        simp [Nat.add_assoc, Nat.add_comm 1]
    · have hh : (compile_file env s (objPathFor s)).1 = false := by
        simpa [compileOk] using h
      simp only [compileLoop, hh, if_false, List.filterMap_cons, h, Bool.false_eq_true]
      exact ih acc

theorem compileLoop_trace (env : Env) (srcs : List String) (acc : ArrayC) :
    (∀ s ∈ srcs, Event.spawnCapture "gcc" (compileArgs s (objPathFor s))
        ∈ (compileLoop env srcs acc).2)
    ∧ (∀ s ∈ srcs, compileOk env s = false →
        Event.errorLog ("Error compiling " ++ s) ∈ (compileLoop env srcs acc).2) := by
  induction srcs generalizing acc with
  | nil => simp
  | cons s rest ih =>
    by_cases h : compileOk env s
    · have hh : (compile_file env s (objPathFor s)).1 = true := h
      simp only [compileLoop, hh, if_true]
      constructor
      · intro x hx
        rcases List.mem_cons.mp hx with rfl | hx'
        · rw [compile_file_trace]
          simp
        · exact List.mem_append_right _ ((ih (array_add acc (objPathFor s))).1 x hx')
      · intro x hx hxf
        rcases List.mem_cons.mp hx with rfl | hx'
        · exact absurd h (by simp [hxf])
        · exact List.mem_append_right _ ((ih (array_add acc (objPathFor s))).2 x hx' hxf)
    · have hh : (compile_file env s (objPathFor s)).1 = false := by
        simpa [compileOk] using h
      simp only [compileLoop, hh, Bool.false_eq_true, if_false]
      constructor
      · intro x hx
        rcases List.mem_cons.mp hx with rfl | hx'
        · rw [compile_file_trace]
          simp
        · have hm := (ih acc).1 x hx'
          simp only [List.mem_append]
          tauto
      · intro x hx hxf
        rcases List.mem_cons.mp hx with rfl | hx'
        · simp
        · have hm := (ih acc).2 x hx' hxf
          simp only [List.mem_append]
          tauto

theorem parseArgs_cons (a : String) (rest : List String) (out : String) (run : Bool) :
    parseArgs (a :: rest) out run =
      if a = "--run" || a = "run" then parseArgs rest out true
      else if a = "--out" then
        (match rest with
         | [] => (out, run)
         | v :: rest2 => parseArgs rest2 v run)
      else parseArgs rest out run := by
  rw [parseArgs.eq_def]

theorem parseArgs_fst_no_out (args : List String) (out : String) (run : Bool)
    (h : ∀ a ∈ args, a ≠ "--out") : (parseArgs args out run).1 = out := by
  induction args generalizing out run with
  | nil => rfl
  | cons a rest ih =>
    have ha : a ≠ "--out" := h a (List.mem_cons_self a rest)
    have hr : ∀ b ∈ rest, b ≠ "--out" := fun b hb => h b (List.mem_cons_of_mem a hb)
    by_cases h1 : a = "--run"
    · simp [parseArgs_cons, h1, ih _ _ hr]
    · by_cases h2 : a = "run"
      · simp [parseArgs_cons, h1, h2, ih _ _ hr]
      · simp [parseArgs_cons, h1, h2, ha, ih _ _ hr]

theorem parseArgs_append_out (args : List String) (out : String) (run : Bool)
    (h : ∀ a ∈ args, a ≠ "--out") :
    parseArgs (args ++ ["--out"]) out run = parseArgs args out run := by
  induction args generalizing out run with
  | nil => rfl
  | cons a rest ih =>
    have ha : a ≠ "--out" := h a (List.mem_cons_self a rest)
    have hr : ∀ b ∈ rest, b ≠ "--out" := fun b hb => h b (List.mem_cons_of_mem a hb)
    by_cases h1 : a = "--run"
    · simp [parseArgs_cons, h1, ih _ _ hr]
    · by_cases h2 : a = "run"
      · simp [parseArgs_cons, h1, h2, ih _ _ hr]
      · simp [parseArgs_cons, h1, h2, ha, ih _ _ hr]

/-- C1: for every source file, `compile_file` reports success iff the
capture-mode command invocation returned a non-null result and the derived
object path exists on the filesystem afterwards; the child process's own
exit status is never inspected (changing it does not change the result). -/
theorem compile_file_success_iff (env : Env) (src obj : String) :
    ((compile_file env src obj).1 = true ↔
      (env.runCommandCapture "gcc" (compileArgs src obj)).isSome = true
        ∧ env.objExistsAfter obj = true)
    ∧ (∀ f, (compile_file { env with captureExitStatus := f } src obj).1
        = (compile_file env src obj).1) := by
  constructor
  · unfold compile_file
    cases env.runCommandCapture "gcc" (compileArgs src obj) <;> simp
  · intro f
    rfl

/-- C2: the compile loop of `main` collects exactly the object paths of the
sources that compiled, in processing order, skipping failed ones (`count`
agrees); every source is attempted (one spawn per source even after
failures) and every failure is reported with its error line. -/
theorem compile_loop_collects (env : Env) (srcs : List String) (n : Nat) :
    ((compileLoop env srcs (array_new n)).1.items
       = srcs.filterMap (fun s => if compileOk env s then some (objPathFor s) else none))
    ∧ ((compileLoop env srcs (array_new n)).1.count
       = (srcs.filterMap (fun s => if compileOk env s then some (objPathFor s) else none)).length)
    ∧ (∀ s ∈ srcs, Event.spawnCapture "gcc" (compileArgs s (objPathFor s))
        ∈ (compileLoop env srcs (array_new n)).2)
    ∧ (∀ s ∈ srcs, compileOk env s = false →
        Event.errorLog ("Error compiling " ++ s) ∈ (compileLoop env srcs (array_new n)).2) := by
  refine ⟨?_, ?_, (compileLoop_trace env srcs (array_new n)).1,
    (compileLoop_trace env srcs (array_new n)).2⟩
  · simpa [array_new] using (compileLoop_acc env srcs (array_new n)).1
  · simpa [array_new] using (compileLoop_acc env srcs (array_new n)).2

/-- C2 witness: with two sources of which only `src/a.c` produces its
object file, the loop collects exactly `["obj/a.o"]`, still spawns the
compile of `src/b.c`, and reports the failure of `src/b.c`. -/
theorem compile_loop_collects_witness :
    ((compileLoop envHalfCompile ["src/a.c", "src/b.c"] (array_new 2)).1.items = ["obj/a.o"])
    ∧ (Event.spawnCapture "gcc" (compileArgs "src/b.c" (objPathFor "src/b.c"))
        ∈ (compileLoop envHalfCompile ["src/a.c", "src/b.c"] (array_new 2)).2)
    ∧ (Event.errorLog ("Error compiling " ++ "src/b.c")
        ∈ (compileLoop envHalfCompile ["src/a.c", "src/b.c"] (array_new 2)).2) := by
  have h := compile_loop_collects envHalfCompile ["src/a.c", "src/b.c"] 2
  refine ⟨?_, ?_, ?_⟩
  · rw [h.1]
    decide
  · exact h.2.2.1 "src/b.c" (by decide)
  · exact h.2.2.2 "src/b.c" (by decide) (by decide)

/-- C3: a NULL or empty (count-zero) object array makes `link_files` fail
immediately, with no subprocess spawned. -/
theorem link_files_empty_fails (env : Env) (output : String) (o : Option ArrayC)
    (h : o = none ∨ ∃ a, o = some a ∧ a.count = 0) :
    (link_files env output o).1 = false
      ∧ noSpawn (link_files env output o).2 = true := by
  rcases h with rfl | ⟨a, rfl, ha⟩
  · exact ⟨rfl, rfl⟩
  · simp [link_files, ha, noSpawn, isSpawn]

/-- C3 witness: `link_files` at a NULL array and at a freshly created empty
array fails without spawning. -/
theorem link_files_empty_fails_witness :
    ((link_files envAllOk "bin/program" none).1 = false
      ∧ noSpawn (link_files envAllOk "bin/program" none).2 = true)
    ∧ ((link_files envAllOk "bin/program" (some (array_new 4))).1 = false
      ∧ noSpawn (link_files envAllOk "bin/program" (some (array_new 4))).2 = true) :=
  ⟨link_files_empty_fails envAllOk "bin/program" none (Or.inl rfl),
   link_files_empty_fails envAllOk "bin/program" (some (array_new 4))
     (Or.inr ⟨array_new 4, rfl, rfl⟩)⟩

/-- C4: for a non-empty object array, `link_files` reports success iff the
spawned link command's exit status is zero and the declared output path
exists afterwards. -/
theorem link_files_success_iff (env : Env) (output : String) (a : ArrayC)
    (h : a.count ≠ 0) :
    (link_files env output (some a)).1 = true ↔
      env.systemResult (linkCmd output (linkObjList a)) = 0
        ∧ env.outputExistsAfterLink output = true := by
  simp [link_files, h]

/-- C4 witness: with one object file, a zero exit status and an existing
output, `link_files` succeeds. -/
theorem link_files_success_iff_witness :
    (link_files envAllOk "bin/program"
        (some { items := ["obj/a.o"], count := 1, capacity := 1 })).1 = true :=
  (link_files_success_iff envAllOk "bin/program"
      { items := ["obj/a.o"], count := 1, capacity := 1 } (by decide)).mpr
    ⟨rfl, rfl⟩

/-- C5: whenever `main` reaches its end (no `FAIL` fired) the process exit
code is 0, for every oracle environment — hence even when the compile, link
or run stage failed — and the outcome is unchanged under any `system` exit
statuses (in particular the run child's). -/
theorem main_always_exits_zero (env : Env) (args : List String) :
    ((mainRun env args).1 = Outcome.exit 0
      ∨ ∃ msg, (mainRun env args).1 = Outcome.fatal msg)
    ∧ (∀ f, (mainRun { env with systemResult := f } args).1 = (mainRun env args).1) := by
  constructor
  · rw [mainRun_fst]
    by_cases h : fatalCond env = true
    · exact Or.inr ⟨fatalMsg env, by simp [h]⟩
    · simp [h]
  · intro f
    rw [mainRun_fst, mainRun_fst]
    rfl

/-- C6: `main` terminates via `FAIL` exactly when `src/` is missing, `obj/`
or `bin/` cannot be ensured, or discovery returns NULL or zero files; with
`src/` missing the trace is empty (so the check precedes any directory
creation), and on every fatal outcome no subprocess was spawned (all later
stages unreachable). -/
theorem main_fatal_iff (env : Env) (args : List String) :
    ((∃ msg, (mainRun env args).1 = Outcome.fatal msg) ↔ fatalCond env = true)
    ∧ (env.dirExists "src" = false → (mainRun env args).2 = [])
    ∧ ((∃ msg, (mainRun env args).1 = Outcome.fatal msg) →
        noSpawn (mainRun env args).2 = true) := by
  refine ⟨⟨?_, ?_⟩, ?_, ?_⟩
  · intro hm
    obtain ⟨msg, hm⟩ := hm
    by_contra h
    rw [mainRun_fst] at hm
    simp [h] at hm
  · intro h
    exact ⟨fatalMsg env, by rw [mainRun_fst]; simp [h]⟩
  · intro h
    simp [mainRun, h]
  · intro hm
    apply mainRun_fatal_noSpawn
    obtain ⟨msg, hm⟩ := hm
    by_contra h
    rw [mainRun_fst] at hm
    simp [h] at hm

/-- C6 witness: with `src/` missing, `main` is fatal, produces no events and
spawns nothing. -/
theorem main_fatal_iff_witness :
    (∃ msg, (mainRun envNoSrcDir []).1 = Outcome.fatal msg)
    ∧ (mainRun envNoSrcDir []).2 = []
    ∧ noSpawn (mainRun envNoSrcDir []).2 = true := by
  have h := main_fatal_iff envNoSrcDir []
  exact ⟨h.1.mpr (by decide), h.2.1 rfl, h.2.2 (h.1.mpr (by decide))⟩

/-- C7: `run_program` fails without spawning when the target is missing,
and separately when it exists but is not executable; when both
preconditions hold it spawns `./<target>` and succeeds iff the child's
exit status is zero. -/
theorem run_program_guarded (env : Env) (p : String) :
    (env.programExists p = false →
      (run_program env p).1 = false ∧ noSpawn (run_program env p).2 = true)
    ∧ (env.programExists p = true → env.programIsExec p = false →
      (run_program env p).1 = false ∧ noSpawn (run_program env p).2 = true)
    ∧ (env.programExists p = true → env.programIsExec p = true →
      Event.spawnSystem ("./" ++ p) ∈ (run_program env p).2
        ∧ ((run_program env p).1 = true ↔ env.systemResult ("./" ++ p) = 0)) := by
  refine ⟨?_, ?_, ?_⟩
  · intro h
    simp [run_program, h, noSpawn, isSpawn]
  · intro h1 h2
    simp [run_program, h1, h2, noSpawn, isSpawn]
  · intro h1 h2
    simp [run_program, h1, h2]

/-- C7 witness: the three cases at concrete environments — missing target,
non-executable target, and a runnable target with exit status zero. -/
theorem run_program_guarded_witness :
    ((run_program envNoProgram "bin/program").1 = false
       ∧ noSpawn (run_program envNoProgram "bin/program").2 = true)
    ∧ ((run_program envNotExec "bin/program").1 = false
       ∧ noSpawn (run_program envNotExec "bin/program").2 = true)
    ∧ (Event.spawnSystem ("./" ++ "bin/program") ∈ (run_program envAllOk "bin/program").2
       ∧ ((run_program envAllOk "bin/program").1 = true
            ↔ envAllOk.systemResult ("./" ++ "bin/program") = 0)) :=
  ⟨(run_program_guarded envNoProgram "bin/program").1 rfl,
   (run_program_guarded envNotExec "bin/program").2.1 rfl rfl,
   (run_program_guarded envAllOk "bin/program").2.2 rfl rfl⟩

/-- C8: when fewer objects than sources came out of the compile loop, the
orchestrator logs the partial-failure summary and still hands the objects
that did compile to the link stage (the link stage's events appear in the
run's trace). -/
theorem partial_compile_still_links (env : Env) (args : List String) (srcs : ArrayC)
    (h1 : env.dirExists "src" = true) (h2 : ensureOk env "obj" = true)
    (h3 : ensureOk env "bin" = true) (h4 : env.findAllFiles = some srcs)
    (h5 : srcs.count ≠ 0) (h6 : (builtObjs env srcs).count < srcs.count) :
    (Event.errorLog ("Only " ++ toString (builtObjs env srcs).count ++ " out of "
        ++ toString srcs.count ++ " files compiled") ∈ (mainRun env args).2)
    ∧ (∃ pre post, (mainRun env args).2
        = pre ++ (link_files env (pathjoin "bin" (parseArgs args "program" false).1)
            (some (builtObjs env srcs))).2 ++ post) := by
  have ht := mainRun_nonfatal_trace env args srcs h1 h2 h3 h4 h5
  have hne : (builtObjs env srcs).count ≠ srcs.count := Nat.ne_of_lt h6
  rw [ht]
  constructor
  · simp [hne]
  · refine ⟨(ensureDir env "obj" "Creating directory for object files obj").2
      ++ (ensureDir env "bin" "Creating directory for executable files bin").2
      ++ [Event.infoLog "Searching for source files in src"]
      ++ [Event.infoLog ("Found " ++ toString srcs.count ++ " source files")]
      ++ (compileLoop env (srcList srcs) (array_new srcs.count)).2
      ++ [Event.errorLog ("Only " ++ toString (builtObjs env srcs).count ++ " out of "
           ++ toString srcs.count ++ " files compiled")],
      (if (link_files env (pathjoin "bin" (parseArgs args "program" false).1)
              (some (builtObjs env srcs))).1 then
         [Event.infoLog ("Program successfully built: "
            ++ pathjoin "bin" (parseArgs args "program" false).1),
          Event.chmod (pathjoin "bin" (parseArgs args "program" false).1) 493]
         ++ (if (parseArgs args "program" false).2 then
               [Event.infoLog "Running program..."]
               ++ (run_program env (pathjoin "bin" (parseArgs args "program" false).1)).2
             else [])
       else [Event.errorLog "Error linking program"]), ?_⟩
    simp [hne, List.append_assoc]

/-- C8 witness: with two discovered sources of which one compiles, the run's
trace contains the partial summary line. -/
theorem partial_compile_still_links_witness :
    Event.errorLog ("Only " ++ toString (builtObjs envHalfCompile srcsW).count ++ " out of "
        ++ toString srcsW.count ++ " files compiled") ∈ (mainRun envHalfCompile []).2 :=
  (partial_compile_still_links envHalfCompile [] srcsW rfl rfl rfl rfl
    (by decide) (by decide)).1

/-- C9: the object path `main` derives for a source path is exactly the spec
formula `join(object_dir, replace_first(basename(p), ".c", ".o"))`; on
concrete inputs the base name is taken, only the first `".c"` occurrence is
replaced, and the result sits under `obj/`. -/
theorem objPath_matches_spec :
    (∀ p, objPathFor p = specObjPath p)
    ∧ objPathFor "src/main.c" = "obj/main.o"
    ∧ objPathFor "src/x.c.c" = "obj/x.o.c" :=
  ⟨fun _ => rfl, by decide, by decide⟩

/-- C10 counterexample: `["--out", "x", "--out"]` has `--out` as the last
argument with no value following it, yet the output name is `"x"`, not the
default `"program"` — refuting the claim that it "keeps its default". -/
theorem parseArgs_trailing_out_cex :
    (parseArgs ["--out", "x", "--out"] "program" false).1 = "x"
      ∧ (parseArgs ["--out", "x", "--out"] "program" false).1 ≠ "program" := by
  constructor <;> decide

/-- C10 (amended): a trailing `--out` with no value is silently ignored —
parsing behaves exactly as without it, so the output name keeps whatever
value it had, which is the default `"program"` when no earlier `--out`
consumed a value; any argument other than `--run`, `run` and `--out` is
likewise silently ignored. -/
theorem parseArgs_ignores_amended :
    (∀ out run, parseArgs ["--out"] out run = (out, run))
    ∧ (∀ args out run, (∀ a ∈ args, a ≠ "--out") →
        parseArgs (args ++ ["--out"]) out run = parseArgs args out run)
    ∧ (∀ x rest out run, x ≠ "--run" → x ≠ "run" → x ≠ "--out" →
        parseArgs (x :: rest) out run = parseArgs rest out run)
    ∧ (∀ args, (∀ a ∈ args, a ≠ "--out") →
        (parseArgs args "program" false).1 = "program") := by
  refine ⟨fun out run => rfl, parseArgs_append_out, ?_, ?_⟩
  · intro x rest out run hx1 hx2 hx3
    simp [parseArgs_cons, hx1, hx2, hx3]
  · intro args h
    exact parseArgs_fst_no_out args "program" false h

/-- C10 witness: a trailing `--out` after `a.c` is a no-op, an unrecognized
`junk` is a no-op, and the output name stays `"program"` when no `--out`
occurs. -/
theorem parseArgs_ignores_amended_witness :
    parseArgs ["a.c", "--out"] "program" false = parseArgs ["a.c"] "program" false
    ∧ parseArgs ["junk", "--run"] "program" false = parseArgs ["--run"] "program" false
    ∧ (parseArgs ["--run", "junk"] "program" false).1 = "program" := by
  have h := parseArgs_ignores_amended
  exact ⟨h.2.1 ["a.c"] "program" false (by decide),
         h.2.2.1 "junk" ["--run"] "program" false (by decide) (by decide) (by decide),
         h.2.2.2 ["--run", "junk"] (by decide)⟩
